import Mathlib

/-! GModServerConfig: the supervisor, log buffer, argument builder and config
store of the panel.

A shallow embedding of `server.js` (the Node.js control panel of a Garry's Mod
dedicated server) and the properties its specification claims about it.

Conventions of the embedding.

* A JavaScript string is the list of its UTF-16 code units (`JStr`), so that
  `.length` is `List.length` and a "character" is one element of the string.
* A JavaScript number is `JNum`: NaN, the two infinities, or a finite value
  held as a rational (every finite double is one; `-0` and `0` are not
  distinguished, the code never tells them apart).
* A parsed JSON document is a `JVal`; the config file holds a JSON object.
* The two ECMAScript conversions that depend on floating-point rounding
  (number to string away from small integers, string to number) and the
  environment variable `GMOD_CMD` are fields of `Host`; every theorem that
  takes a `Host` holds for all of them.
* Module-level variables of `server.js` (`gmodProc`, `lastLines`) and the
  parts of the outside world the code acts on (the config file, the child
  processes, pending callbacks, emitted socket events) are fields of `State`;
  each function becomes a function from states to states. What the outside
  world decides (whether a signal is delivered, whether `pkill` can be
  launched, whether the disk accepts a write) is an argument of the function.
* HTTP routing, the session gate `requireAuth` and the browser code are
  outside the embedding: handlers are modelled from the point where the
  request has been accepted.
-/

namespace GModPanel

/-! ## JavaScript strings -/

/-- A JavaScript string: its UTF-16 code units. -/
abbrev JStr := List Nat

/-- A string literal of the source (all of them lie in the basic plane). -/
def lit (s : String) : JStr := s.toList.map Char.toNat

/-- ECMAScript WhiteSpace and LineTerminator code units, the set that
`String.prototype.trim` strips and that StringToNumber skips. -/
def isWhiteSpace (c : Nat) : Bool :=
  c == 0x09 || c == 0x0A || c == 0x0B || c == 0x0C || c == 0x0D || c == 0x20 ||
  c == 0xA0 || c == 0x1680 || (0x2000 ≤ c && c ≤ 0x200A) ||
  c == 0x2028 || c == 0x2029 || c == 0x202F || c == 0x205F || c == 0x3000 ||
  c == 0xFEFF

/-- The method `String.prototype.trim`. -/
def trim (s : JStr) : JStr :=
  ((s.dropWhile isWhiteSpace).reverse.dropWhile isWhiteSpace).reverse

/-- The test `a.includes("\n") || a.includes("\r")`. -/
def hasLineBreak (a : JStr) : Bool := a.contains 0x0A || a.contains 0x0D

/-- The method `Array.prototype.join` on an array of strings. -/
def join (sep : JStr) (xs : List JStr) : JStr := List.intercalate sep xs

/-- One step of `text.split(/\r?\n/)`: `cur` is the piece being read. At a
line feed the piece ends; a carriage return right before the line feed
belongs to the separator. -/
def splitLinesAux : JStr → JStr → List JStr
  | cur, [] => [cur]
  | cur, c :: rest =>
    if c = 0x0A then
      (if cur.getLast? = some 0x0D then cur.dropLast else cur) :: splitLinesAux [] rest
    else splitLinesAux (cur ++ [c]) rest

/-- The call `text.split(/\r?\n/)`. -/
def splitLines (text : JStr) : List JStr := splitLinesAux [] text

/-! ## JavaScript numbers -/

/-- A JavaScript number. -/
inductive JNum
  | nan
  | negInf
  | posInf
  | fin (q : ℚ)
  deriving DecidableEq

namespace JNum

/-- The call `Number.isNaN(x)`. -/
def isNaN : JNum → Bool
  | nan => true
  | _ => false

/-- The comparison `a < b` on numbers (false as soon as one side is NaN). -/
def lt : JNum → JNum → Bool
  | nan, _ => false
  | _, nan => false
  | fin a, fin b => decide (a < b)
  | negInf, negInf => false
  | negInf, _ => true
  | _, negInf => false
  | posInf, _ => false
  | fin _, posInf => true

/-- The comparison `a > b` on numbers. -/
def gt (a b : JNum) : Bool := lt b a

/-- Whether a number is finite and lies in the closed interval `[lo, hi]`. -/
def inRange (lo hi : ℚ) : JNum → Bool
  | fin q => decide (lo ≤ q) && decide (q ≤ hi)
  | _ => false

end JNum

/-! ## JSON values -/

/-- A JavaScript value as `JSON.parse` builds it, plus `undefined`, the value
of a property the object does not have. -/
inductive JVal
  | undefined
  | null
  | bool (b : Bool)
  | num (n : JNum)
  | str (s : JStr)
  | arr (xs : List JVal)
  | obj (fields : List (JStr × JVal))

/-- A parsed JSON object: its properties. -/
abbrev Obj := List (JStr × JVal)

/-- Property access `o.k` on a parsed JSON object. -/
def getField (o : Obj) (k : String) : JVal :=
  (o.lookup (lit k)).getD JVal.undefined

/-- What the runtime supplies and the source does not define. -/
structure Host where
  /-- Number::toString on a finite value that is not an integer of magnitude
  below 10^21 (the shortest digits that round-trip through a double). -/
  numberToString : ℚ → JStr
  /-- StringToNumber on a string that is not empty after trimming (the value
  of the numeric literal rounded to a double, or NaN). -/
  stringToNumber : JStr → JNum
  /-- The constant `GMOD_CMD` (environment variable, default `./srcds_run`). -/
  GMOD_CMD : JStr

/-- The conversion `String(x)` of a number. -/
def JNum.toStr (H : Host) : JNum → JStr
  | .nan => lit "NaN"
  | .posInf => lit "Infinity"
  | .negInf => lit "-Infinity"
  | .fin q =>
    if q.den = 1 ∧ q.num.natAbs < 10 ^ 21 then lit (toString q.num)
    else H.numberToString q

namespace JVal

/-- ToBoolean, the test behind `x || y`, `!x` and `if (x)`. -/
def truthy : JVal → Bool
  | undefined => false
  | null => false
  | bool b => b
  | num n => !(n.isNaN || n == JNum.fin 0)
  | str s => !s.isEmpty
  | arr _ => true
  | obj _ => true

/-- The expression `x || d`. -/
def orElse (x d : JVal) : JVal := if x.truthy then x else d

mutual
/-- The conversion `String(x)`. -/
def toStr (H : Host) : JVal → JStr
  | undefined => lit "undefined"
  | null => lit "null"
  | bool b => if b then lit "true" else lit "false"
  | num n => n.toStr H
  | str s => s
  | arr xs => join (lit ",") (elemStrs H xs)
  | obj _ => lit "[object Object]"
termination_by structural v => v
/-- The pieces `Array.prototype.join` glues together: `null` and `undefined`
elements give the empty string. -/
def elemStrs (H : Host) : List JVal → List JStr
  | [] => []
  | undefined :: rest => [] :: elemStrs H rest
  | null :: rest => [] :: elemStrs H rest
  | x :: rest => toStr H x :: elemStrs H rest
termination_by structural xs => xs
end

/-- StringToNumber: a string that is empty after trimming is 0. -/
def strToNumber (H : Host) (s : JStr) : JNum :=
  if trim s = [] then JNum.fin 0 else H.stringToNumber s

/-- The conversion `Number(x)`. -/
def toNumber (H : Host) : JVal → JNum
  | undefined => JNum.nan
  | null => JNum.fin 0
  | bool b => if b then JNum.fin 1 else JNum.fin 0
  | num n => n
  | str s => strToNumber H s
  | arr xs => strToNumber H (toStr H (arr xs))
  | obj _ => JNum.nan

end JVal

/-! ## The config store: `readConfig` -/

/-- The launch config `readConfig` returns: the seven properties it
normalises. Other properties of the file stay on the object; none of the
functions below reads them. -/
structure Config where
  map : JStr
  gamemode : JStr
  maxPlayers : JNum
  collectionId : JStr
  extraArgs : List JStr
  port : JNum
  tickrate : JNum

/-- The function `readConfig`, after `JSON.parse` has produced the object
`cfg`. -/
def readConfig (H : Host) (cfg : Obj) : Config :=
  let map := JVal.toStr H ((getField cfg "map").orElse (.str (lit "gm_construct")))
  let gamemode := JVal.toStr H ((getField cfg "gamemode").orElse (.str (lit "sandbox")))
  let maxPlayers := JVal.toNumber H ((getField cfg "maxPlayers").orElse (.num (.fin 16)))
  let collectionId := JVal.toStr H ((getField cfg "collectionId").orElse (.str (lit "")))
  let extraArgs :=
    match getField cfg "extraArgs" with
    | .arr xs => xs.map (JVal.toStr H)
    | _ => []
  let port := JVal.toNumber H ((getField cfg "port").orElse (.num (.fin 27015)))
  let tickrate := JVal.toNumber H ((getField cfg "tickrate").orElse (.num (.fin 66)))
  let port := if port.isNaN || port.lt (.fin 1) then JNum.fin 27015 else port
  let port := if port.gt (.fin 65535) then JNum.fin 27015 else port
  let tickrate := if tickrate.isNaN || tickrate.lt (.fin 10) then JNum.fin 66 else tickrate
  let tickrate := if tickrate.gt (.fin 128) then JNum.fin 128 else tickrate
  let maxPlayers := if maxPlayers.isNaN || maxPlayers.lt (.fin 1) then JNum.fin 1 else maxPlayers
  let maxPlayers := if maxPlayers.gt (.fin 128) then JNum.fin 128 else maxPlayers
  { map := map, gamemode := gamemode, maxPlayers := maxPlayers,
    collectionId := collectionId, extraArgs := extraArgs, port := port,
    tickrate := tickrate }

/-! ## The log buffer: `pushLine` -/

/-- The constant `MAX_LINES`. -/
def MAX_LINES : Nat := 2000

/-- The function `pushLine` on the array `lastLines`: push, then keep the
last `MAX_LINES` entries (`slice(-MAX_LINES)`) when there are more. -/
def pushLine (lastLines : List JStr) (line : JStr) : List JStr :=
  let pushed := lastLines ++ [line]
  if pushed.length > MAX_LINES then pushed.drop (pushed.length - MAX_LINES) else pushed

/-! ## The argument vector: `buildArgs` -/

/-- The function `buildArgs`: the fixed flags, the collection pair under its
guard, then the loop over `cfg.extraArgs` with its `continue`. -/
def buildArgs (H : Host) (cfg : Config) : List JStr :=
  let args : List JStr :=
    [lit "-console", lit "-usercon",
     lit "-game", lit "garrysmod",
     lit "-port", cfg.port.toStr H,
     lit "-tickrate", cfg.tickrate.toStr H,
     lit "+maxplayers", cfg.maxPlayers.toStr H,
     lit "+gamemode", cfg.gamemode,
     lit "+map", cfg.map]
  let args :=
    if !cfg.collectionId.isEmpty && trim cfg.collectionId != [] then
      args ++ [lit "+host_workshop_collection", trim cfg.collectionId]
    else args
  cfg.extraArgs.foldl (fun acc a => if hasLineBreak a then acc else acc ++ [a]) args

/-! ## The supervisor state -/

/-- The `ChildProcess` object for a spawned server: the properties the code
reads. `pid` numbers the processes in spawn order. `killed` is set by the
runtime once `kill()` has delivered a signal. The server is spawned with all
three stdio streams piped, so `stdin` is always there. -/
structure ChildProcess where
  pid : Nat
  killed : Bool
  deriving DecidableEq

/-- The object `getStatus` returns. -/
structure Status where
  running : Bool
  pid : Option Nat
  deriving DecidableEq

/-- The record `POST /api/config` builds and writes (`next`). -/
structure SavedConfig where
  map : JStr
  gamemode : JStr
  maxPlayers : JNum
  collectionId : JStr
  extraArgs : List JStr

/-- A socket.io event the panel sends. -/
inductive Emitted
  | log (line : JStr)
  | status (st : Status)
  | config (next : SavedConfig)
  | socketLog (line : JStr)

/-- The supervisor and the world it acts on. -/
structure State where
  /-- The variable `gmodProc`. -/
  gmodProc : Option ChildProcess
  /-- The variable `lastLines`. -/
  lastLines : List JStr
  /-- The file `config.json`: its parsed content, or `none` when it cannot be
  read or is not valid JSON. -/
  configFile : Option Obj
  /-- The pids of the server processes spawned and not yet closed. -/
  alive : List Nat
  /-- How many server processes have been spawned so far. -/
  spawned : Nat
  /-- The `pkill` children of `stopServer` whose `close` has not fired yet. -/
  pendingKillers : Nat
  /-- The restart timers of `restartServer` that have not fired yet. -/
  pendingTimers : Nat
  /-- The fire-and-forget `pkill` launches of `startServer`. -/
  cleanupKills : Nat
  /-- The chunks passed to `gmodProc.stdin.write`, with the pid written to. -/
  stdinWrites : List (Nat × JStr)
  /-- The socket.io events sent, oldest first. -/
  emitted : List Emitted
  /-- Whether an exception escaped a timer callback: Node then terminates
  the panel. -/
  hostCrashed : Bool

/-- The panel right after start-up. -/
def init (file : Option Obj) : State :=
  { gmodProc := none, lastLines := [], configFile := file, alive := [], spawned := 0,
    pendingKillers := 0, pendingTimers := 0, cleanupKills := 0, stdinWrites := [],
    emitted := [], hostCrashed := false }

/-- What a call gives back: the object `{ ok, error }`. -/
structure Result where
  ok : Bool
  error : Option JStr
  deriving DecidableEq

/-- How a call ends: it returns a result or an exception leaves it. -/
inductive Outcome
  | returned (r : Result)
  | threw
  deriving DecidableEq

/-- Whether the call returned `ok: true`. -/
def Outcome.ok : Outcome → Bool
  | .returned r => r.ok
  | .threw => false

/-- The function `isRunning`. -/
def isRunning (s : State) : Bool :=
  match s.gmodProc with
  | some p => !p.killed
  | none => false

/-- The function `getStatus`. -/
def getStatus (s : State) : Status :=
  { running := isRunning s,
    pid := if isRunning s then s.gmodProc.map (fun p => p.pid) else none }

/-- The pair `pushLine(line); io?.emit("log", line)`. -/
def logLine (s : State) (line : JStr) : State :=
  { s with lastLines := pushLine s.lastLines line, emitted := s.emitted ++ [.log line] }

/-- The call `io?.emit("status", getStatus())`. -/
def emitStatus (s : State) : State :=
  { s with emitted := s.emitted ++ [.status (getStatus s)] }

/-! ## `startServer`, `stopServer`, `restartServer` and their callbacks -/

/-- The function `startServer`. `readConfig` is called outside any `try`, so
a config file that cannot be read or parsed makes the call throw, after the
defensive `pkill` has been launched. `spawn(GMOD_CMD, ...)` is taken to
return a child process, as the code takes it. -/
def startServer (H : Host) (s : State) : Outcome × State :=
  if isRunning s then (.returned ⟨false, some (lit "Déjà en cours.")⟩, s)
  else
    let s := { s with cleanupKills := s.cleanupKills + 1 }
    match s.configFile with
    | none => (.threw, s)
    | some file =>
      let cfg := readConfig H file
      let args := buildArgs H cfg
      let s := logLine s (lit "[panel] Starting: " ++ H.GMOD_CMD ++ lit " " ++ join (lit " ") args)
      let s := { s with gmodProc := some ⟨s.spawned, false⟩, alive := s.alive ++ [s.spawned],
                        spawned := s.spawned + 1 }
      (.returned ⟨true, none⟩, emitStatus s)

/-- The `data` callback of the server's stdout. -/
def onStdout (s : State) (text : JStr) : State :=
  (splitLines text).foldl (fun s line => if line.isEmpty then s else logLine s line) s

/-- The `data` callback of the server's stderr. -/
def onStderr (s : State) (text : JStr) : State :=
  (splitLines text).foldl
    (fun s line => if line.isEmpty then s else logLine s (lit "[stderr] " ++ line)) s

/-- A value that is a number or `null`, inside a template literal. -/
def optIntStr : Option Int → JStr
  | some i => lit (toString i)
  | none => lit "null"

/-- A value that is a string or `null`, inside a template literal. -/
def optStr : Option JStr → JStr
  | some t => t
  | none => lit "null"

/-- The `close` callback of the server process `pid`. It clears `gmodProc`
whichever process that variable holds by then. -/
def onClose (s : State) (pid : Nat) (code : Option Int) (signal : Option JStr) : State :=
  let s := { s with alive := s.alive.filter (fun q => q != pid) }
  let s := logLine s (lit "[panel] Server exited (code=" ++ optIntStr code ++
    lit ", signal=" ++ optStr signal ++ lit ")")
  emitStatus { s with gmodProc := none }

/-- What `gmodProc.kill("SIGTERM")` does: the signal is delivered and the
runtime sets `killed`, or it is not delivered and `kill` returns false, or
`kill` throws. -/
inductive SignalOutcome
  | delivered
  | notDelivered
  | threw
  deriving DecidableEq

/-- The `close` callback of the `pkill` child of `stopServer`. -/
def onKillerClose (s : State) (code : Option Int) : State :=
  let s := logLine s (lit "[panel] pkill srcds_linux terminé (code=" ++ optIntStr code ++ lit ").")
  emitStatus { s with gmodProc := none }

/-- The function `stopServer`. `launched` tells whether `spawn("pkill", ...)`
returned a child (its `close` fires later) or threw. -/
def stopServer (s : State) (sig : SignalOutcome) (launched : Bool) : Result × State :=
  let s := logLine s (lit "[panel] Stopping server (gmodProc + anciens srcds_linux)...")
  let s :=
    if isRunning s then
      match sig with
      | .delivered => { s with gmodProc := s.gmodProc.map (fun p => { p with killed := true }) }
      | .notDelivered => s
      | .threw => logLine s (lit "[panel] Erreur SIGTERM sur gmodProc.")
    else s
  let s :=
    if launched then { s with pendingKillers := s.pendingKillers + 1 }
    else
      let s := logLine s (lit "[panel] Impossible d\x27exécuter pkill srcds_linux.")
      emitStatus { s with gmodProc := none }
  (⟨true, none⟩, s)

/-- The function `restartServer`. -/
def restartServer (H : Host) (s : State) (sig : SignalOutcome) (launched : Bool) :
    Outcome × State :=
  if !isRunning s then
    match startServer H s with
    | (.returned r, s) => (.returned (if r.ok then ⟨true, none⟩ else r), s)
    | (.threw, s) => (.threw, s)
  else
    let (stopRes, s) := stopServer s sig launched
    if !stopRes.ok then (.returned stopRes, s)
    else (.returned ⟨true, none⟩, { s with pendingTimers := s.pendingTimers + 1 })

/-- The timer callback of `restartServer`: `startServer(io)` with nothing
around it, so an exception it throws is uncaught. -/
def onRestartTimer (H : Host) (s : State) : State :=
  match startServer H s with
  | (.returned _, s) => s
  | (.threw, s) => { s with hostCrashed := true }

/-! ## The console command handler -/

/-- The handler of the socket event `console:cmd`. What the panel prints on
its own console (`console.log`, and `console.error` in the `catch`) is not
part of the state; `stdinWrites` records the write the handler issues. -/
def consoleCmd (s : State) (cmd : JVal) : State :=
  match s.gmodProc with
  | none =>
    let msg := lit "[panel] Serveur non lancé ; commande ignorée."
    { s with lastLines := pushLine s.lastLines msg, emitted := s.emitted ++ [.socketLog msg] }
  | some p =>
    if p.killed then
      let msg := lit "[panel] Serveur non lancé ; commande ignorée."
      { s with lastLines := pushLine s.lastLines msg, emitted := s.emitted ++ [.socketLog msg] }
    else
      match cmd with
      | .str text =>
        let cmd := trim text
        if cmd.isEmpty then s
        else if cmd.length > 200 then s
        else
          let s := logLine s (lit "[console] " ++ cmd)
          { s with stdinWrites := s.stdinWrites ++ [(p.pid, cmd ++ lit "\n")] }
      | _ => s

/-! ## The config endpoint `POST /api/config` -/

/-- A number as `JSON.stringify` writes it and `JSON.parse` reads it back:
NaN and the infinities become `null`. -/
def jsonNum : JNum → JVal
  | .fin q => .num (.fin q)
  | _ => .null

/-- The function `writeConfig`: what `config.json` holds afterwards. -/
def writeConfig (next : SavedConfig) : Obj :=
  [(lit "map", .str next.map),
   (lit "gamemode", .str next.gamemode),
   (lit "maxPlayers", jsonNum next.maxPlayers),
   (lit "collectionId", .str next.collectionId),
   (lit "extraArgs", .arr (next.extraArgs.map JVal.str))]

/-- The record `next` of the handler, from the request body and the current
config. -/
def nextConfig (H : Host) (body : Obj) (current : Config) : SavedConfig :=
  let map := match getField body "map" with
    | .str m => m
    | _ => current.map
  let gamemode := match getField body "gamemode" with
    | .str g => g
    | _ => current.gamemode
  let maxPlayers := match getField body "maxPlayers" with
    | .undefined => current.maxPlayers
    | .null => current.maxPlayers
    | v => JVal.toNumber H v
  let collectionId := match getField body "collectionId" with
    | .str c => c
    | _ => current.collectionId
  let extraArgs := match getField body "extraArgs" with
    | .arr xs => xs.map (JVal.toStr H)
    | _ => current.extraArgs
  let map := if map.isEmpty then lit "gm_construct" else map
  let gamemode := if gamemode.isEmpty then lit "sandbox" else gamemode
  let maxPlayers := if maxPlayers.isNaN || maxPlayers.lt (.fin 1) then JNum.fin 1 else maxPlayers
  let maxPlayers := if maxPlayers.gt (.fin 128) then JNum.fin 128 else maxPlayers
  let extraArgs := extraArgs.filter (fun a => !a.isEmpty && !a.contains 0x0A && !a.contains 0x0D)
  { map := map, gamemode := gamemode, maxPlayers := maxPlayers,
    collectionId := collectionId, extraArgs := extraArgs }

/-- The handler of `POST /api/config`, past the authentication gate: the new
state and the HTTP status of the answer. `diskOk` tells whether
`fs.writeFileSync` succeeds. -/
def postConfig (H : Host) (s : State) (body : Obj) (diskOk : Bool) : Nat × State :=
  match s.configFile with
  | none => (500, s)
  | some file =>
    let next := nextConfig H body (readConfig H file)
    if diskOk then
      (200, { s with configFile := some (writeConfig next),
                     emitted := s.emitted ++ [.config next] })
    else (500, s)

/-! ## Runs of the panel -/

/-- What can happen to the panel, one at a time: a request, or a callback
the runtime fires. -/
inductive Event
  | start
  | stop (sig : SignalOutcome) (launched : Bool)
  | restart (sig : SignalOutcome) (launched : Bool)
  | restartTimer
  | procClose (pid : Nat) (code : Option Int) (signal : Option JStr)
  | killerClose (code : Option Int)
  | stdout (pid : Nat) (text : JStr)
  | stderr (pid : Nat) (text : JStr)
  | console (cmd : JVal)
  | saveConfig (body : Obj) (diskOk : Bool)
  | fileChanged (file : Option Obj)

/-- One event. A callback fires only when it is pending: a `close` for a
process that is alive, a `pkill` completion or a timer that is outstanding,
stream data from a process that has not closed. `fileChanged` is
`config.json` being edited, removed or corrupted outside the panel. Nothing
runs once the panel has crashed. -/
def step (H : Host) (s : State) (ev : Event) : State :=
  if s.hostCrashed then s
  else
    match ev with
    | .start => (startServer H s).2
    | .stop sig launched => (stopServer s sig launched).2
    | .restart sig launched => (restartServer H s sig launched).2
    | .restartTimer =>
      if s.pendingTimers = 0 then s
      else onRestartTimer H { s with pendingTimers := s.pendingTimers - 1 }
    | .procClose pid code signal =>
      if pid ∈ s.alive then onClose s pid code signal else s
    | .killerClose code =>
      if s.pendingKillers = 0 then s
      else onKillerClose { s with pendingKillers := s.pendingKillers - 1 } code
    | .stdout pid text => if pid ∈ s.alive then onStdout s text else s
    | .stderr pid text => if pid ∈ s.alive then onStderr s text else s
    | .console cmd => consoleCmd s cmd
    | .saveConfig body diskOk => (postConfig H s body diskOk).2
    | .fileChanged file => { s with configFile := file }

/-- A run: the events in order. -/
def exec (H : Host) (s : State) (evs : List Event) : State := evs.foldl (step H) s

/-- The outcomes of `n` consecutive calls of `startServer`, nothing else
happening in between. -/
def startRun (H : Host) : Nat → State → List Outcome
  | 0, _ => []
  | n + 1, s => (startServer H s).1 :: startRun H n (startServer H s).2

/-- The tracked handle, when there is one, is the process spawned last, and
that process has not closed. -/
def TrackedIsLatestAlive (s : State) : Prop :=
  ∀ p, s.gmodProc = some p → p.pid ∈ s.alive ∧ p.pid + 1 = s.spawned

/-! ## Concrete inputs for the closed examples -/

/-- A host for closed examples: `GMOD_CMD` has the default of the source. The
two numeric conversions are stand-ins that no example reaches: every number
in the examples is an integer below 10^21 and no example converts a string
to a number. -/
def exampleHost : Host :=
  { numberToString := fun _ => [], stringToNumber := fun _ => JNum.nan,
    GMOD_CMD := lit "./srcds_run" }

/-- The launch config of the specification's example. -/
def exampleConfig : Config :=
  { map := lit "gm_flatgrass", gamemode := lit "sandbox", maxPlayers := .fin 20,
    port := .fin 27016, tickrate := .fin 66, collectionId := lit "",
    extraArgs := [lit "+sv_cheats 1"] }

/-- The same config as the content of `config.json`. -/
def exampleFile : Obj :=
  [(lit "map", .str (lit "gm_flatgrass")),
   (lit "gamemode", .str (lit "sandbox")),
   (lit "maxPlayers", .num (.fin 20)),
   (lit "collectionId", .str (lit "")),
   (lit "extraArgs", .arr [.str (lit "+sv_cheats 1")]),
   (lit "port", .num (.fin 27016)),
   (lit "tickrate", .num (.fin 66))]

/-- The panel with the example config on disk, after one `startServer`: the
server process 0 is tracked and running. -/
def runningState : State := (startServer exampleHost (init (some exampleFile))).2

/-- A config file with a port and a tick rate that are not the defaults. -/
def customFile : Obj :=
  [(lit "map", .str (lit "gm_flatgrass")),
   (lit "gamemode", .str (lit "sandbox")),
   (lit "maxPlayers", .num (.fin 20)),
   (lit "collectionId", .str (lit "")),
   (lit "extraArgs", .arr []),
   (lit "port", .num (.fin 27016)),
   (lit "tickrate", .num (.fin 100))]

/-! # Theorems -/

set_option maxRecDepth 100000

/-! ## The log buffer -/

theorem pushLine_eq_drop (buf : List JStr) (line : JStr) :
    pushLine buf line = (buf ++ [line]).drop ((buf ++ [line]).length - MAX_LINES) := by
  unfold pushLine
  by_cases h : (buf ++ [line]).length > MAX_LINES
  · simp only [h, if_true]
  · have h0 : (buf ++ [line]).length - MAX_LINES = 0 := by omega
    simp only [h, if_false, h0, List.drop_zero]

theorem foldl_pushLine_eq_drop (lines : List JStr) :
    lines.foldl pushLine [] = lines.drop (lines.length - MAX_LINES) := by
  induction lines using List.reverseRecOn with
  | nil => rfl
  | append_singleton xs x ih =>
    rw [List.foldl_append, List.foldl_cons, List.foldl_nil, ih, pushLine_eq_drop]
    have hlen : (xs.drop (xs.length - MAX_LINES)).length = xs.length - (xs.length - MAX_LINES) :=
      List.length_drop _ _
    by_cases h : xs.length < MAX_LINES
    · have h0 : xs.length - MAX_LINES = 0 := by omega
      have h1 : (xs ++ [x]).length - MAX_LINES = 0 := by
        simp only [List.length_append, List.length_singleton]; omega
      simp only [h0, h1, List.drop_zero]
    · have hM : MAX_LINES = 2000 := rfl
      have h1 : (xs.drop (xs.length - MAX_LINES) ++ [x]).length - MAX_LINES = 1 := by
        simp only [List.length_append, List.length_singleton, hlen]; omega
      have h2 : (xs ++ [x]).length - MAX_LINES = xs.length - MAX_LINES + 1 := by
        simp only [List.length_append, List.length_singleton]; omega
      rw [h1, h2]
      rw [List.drop_append_of_le_length (by rw [hlen]; omega),
        List.drop_append_of_le_length (by omega), List.drop_drop]

/-- C1. Appending lines one by one with `pushLine` to an empty buffer: after
every append the buffer has at most 2000 entries; after all `n` appends it has
`min n 2000` entries and is the last `min n 2000` lines in their order; after
2500 appends it is lines 501 to 2500. -/
theorem pushLine_keeps_last_lines (lines : List JStr) :
    (∀ k, ((lines.take k).foldl pushLine []).length ≤ 2000) ∧
    (lines.foldl pushLine []).length = min lines.length 2000 ∧
    lines.foldl pushLine [] = lines.drop (lines.length - min lines.length 2000) ∧
    (∀ line : Nat → JStr,
      ((List.range 2500).map line).foldl pushLine [] = (List.range' 500 2000).map line) := by
  have hM : MAX_LINES = 2000 := rfl
  refine ⟨fun k => ?_, ?_, ?_, fun line => ?_⟩
  · rw [foldl_pushLine_eq_drop, List.length_drop, hM]; omega
  · rw [foldl_pushLine_eq_drop, List.length_drop, hM]; omega
  · have h : lines.length - min lines.length 2000 = lines.length - 2000 := by omega
    rw [foldl_pushLine_eq_drop, hM, h]
  · have h : (List.range 2500).drop (2500 - 2000) = List.range' 500 2000 := by
      have e : List.range' 0 2500 = List.range' 0 500 ++ List.range' (0 + 500) 2000 :=
        (List.range'_append_1 0 500 2000).symm
      rw [List.range_eq_range', e]
      exact List.drop_left' (by rw [List.length_range'])
    rw [foldl_pushLine_eq_drop, hM, List.length_map, List.length_range, ← List.map_drop, h]

/-! ## The argument vector -/

theorem foldl_extraArgs (xs : List JStr) (acc : List JStr) :
    xs.foldl (fun acc a => if hasLineBreak a then acc else acc ++ [a]) acc =
      acc ++ xs.filter (fun a => decide (0x0A ∉ a ∧ 0x0D ∉ a)) := by
  induction xs generalizing acc with
  | nil => simp
  | cons a rest ih =>
    rw [List.foldl_cons, ih]
    by_cases h : hasLineBreak a = true
    · have h' : ¬ (0x0A ∉ a ∧ 0x0D ∉ a) := by
        simp only [hasLineBreak, Bool.or_eq_true, List.contains, List.elem_eq_mem, decide_eq_true_eq] at h
        tauto
      simp [h, h']
    · have h' : 0x0A ∉ a ∧ 0x0D ∉ a := by
        simp only [hasLineBreak, Bool.or_eq_true, List.contains, List.elem_eq_mem, decide_eq_true_eq] at h
        tauto
      simp [h, h']

theorem trim_nil : trim [] = [] := rfl

/-- C4. `buildArgs(cfg)` is the fixed flag/value pairs, then the collection
pair exactly when the collection id is non-empty after trimming, then the extra
arguments without a line feed or carriage return, in order. For the
specification's example config the vector has no collection flag and ends with
`+sv_cheats 1`. -/
theorem buildArgs_layout (H : Host) (cfg : Config) :
    buildArgs H cfg =
      [lit "-console", lit "-usercon", lit "-game", lit "garrysmod",
       lit "-port", cfg.port.toStr H, lit "-tickrate", cfg.tickrate.toStr H,
       lit "+maxplayers", cfg.maxPlayers.toStr H, lit "+gamemode", cfg.gamemode,
       lit "+map", cfg.map]
      ++ (if trim cfg.collectionId = [] then []
          else [lit "+host_workshop_collection", trim cfg.collectionId])
      ++ cfg.extraArgs.filter (fun a => decide (0x0A ∉ a ∧ 0x0D ∉ a)) ∧
    buildArgs H exampleConfig =
      [lit "-console", lit "-usercon", lit "-game", lit "garrysmod",
       lit "-port", lit "27016", lit "-tickrate", lit "66",
       lit "+maxplayers", lit "20", lit "+gamemode", lit "sandbox",
       lit "+map", lit "gm_flatgrass", lit "+sv_cheats 1"] ∧
    lit "+host_workshop_collection" ∉ buildArgs H exampleConfig ∧
    (buildArgs H exampleConfig).getLast? = some (lit "+sv_cheats 1") := by
  have hex : buildArgs H exampleConfig =
      [lit "-console", lit "-usercon", lit "-game", lit "garrysmod",
       lit "-port", lit "27016", lit "-tickrate", lit "66",
       lit "+maxplayers", lit "20", lit "+gamemode", lit "sandbox",
       lit "+map", lit "gm_flatgrass", lit "+sv_cheats 1"] := rfl
  refine ⟨?_, hex, ?_, ?_⟩
  · unfold buildArgs
    simp only [foldl_extraArgs]
    by_cases hc : trim cfg.collectionId = []
    · simp [hc]
    · have hne : cfg.collectionId ≠ [] := by
        intro h0
        exact hc (by rw [h0]; exact trim_nil)
      simp [hc, hne]
  · rw [hex]; decide
  · rw [hex]; decide

/-! ## `startServer` while a server is running -/

theorem startServer_of_running (H : Host) (s : State) (h : isRunning s = true) :
    startServer H s = (.returned ⟨false, some (lit "Déjà en cours.")⟩, s) := by
  unfold startServer
  rw [if_pos h]

theorem startRun_of_running (H : Host) (s : State) (h : isRunning s = true) (n : Nat) :
    ∀ o ∈ startRun H n s, o.ok = false := by
  induction n with
  | zero => intro o ho; cases ho
  | succ n ih =>
    intro o ho
    rw [startRun, startServer_of_running H s h] at ho
    rcases List.mem_cons.mp ho with rfl | ho
    · rfl
    · exact ih o ho

theorem startRun_of_unreadable (H : Host) (n : Nat) :
    ∀ s : State, isRunning s = false → s.configFile = none →
      ∀ o ∈ startRun H n s, o.ok = false := by
  induction n with
  | zero => intro s _ _ o ho; cases ho
  | succ n ih =>
    intro s hr hc o ho
    have hs : startServer H s = (.threw, { s with cleanupKills := s.cleanupKills + 1 }) := by
      unfold startServer
      simp [hr, hc]
    rw [startRun, hs] at ho
    rcases List.mem_cons.mp ho with rfl | ho
    · rfl
    · exact ih { s with cleanupKills := s.cleanupKills + 1 } hr hc o ho

theorem isRunning_after_start (H : Host) (s : State) (file : Obj)
    (hr : isRunning s = false) (hc : s.configFile = some file) :
    isRunning (startServer H s).2 = true := by
  unfold startServer
  rw [if_neg (by rw [hr]; decide)]
  simp [hc, isRunning, emitStatus, logLine]

theorem startRun_tail (H : Host) (s : State) (n : Nat) :
    ∀ o ∈ (startRun H n s).tail, o.ok = false := by
  cases n with
  | zero => intro o ho; cases ho
  | succ n =>
    intro o ho
    rw [startRun, List.tail_cons] at ho
    by_cases hr : isRunning s = true
    · rw [startServer_of_running H s hr] at ho
      exact startRun_of_running H s hr n o ho
    · have hr' : isRunning s = false := by simpa using hr
      cases hc : s.configFile with
      | none =>
        have hs : startServer H s = (.threw, { s with cleanupKills := s.cleanupKills + 1 }) := by
          unfold startServer
          simp [hr', hc]
        rw [hs] at ho
        exact startRun_of_unreadable H n { s with cleanupKills := s.cleanupKills + 1 } hr' hc o ho
      | some file =>
        exact startRun_of_running H _ (isRunning_after_start H s file hr' hc) n o ho

/-- C2. When a live handle exists (`isRunning()` is true), `startServer`
returns `ok: false` with the already-running error and leaves the whole state
as it was: same handle, nothing spawned, same log buffer. And in any run of
consecutive `startServer` calls, from any state, no call after the first
returns `ok: true`. -/
theorem startServer_rejects_when_running (H : Host) (s : State) (h : isRunning s = true) :
    startServer H s = (.returned ⟨false, some (lit "Déjà en cours.")⟩, s) ∧
    ∀ (t : State) (n : Nat), ∀ o ∈ (startRun H n t).tail, o.ok = false :=
  ⟨startServer_of_running H s h, fun t n => startRun_tail H t n⟩

/-- C2 at a concrete state: the panel after one successful start rejects the
next start and keeps its state. -/
theorem startServer_rejects_witness :
    isRunning runningState = true ∧
    runningState.gmodProc = some ⟨0, false⟩ ∧
    startServer exampleHost runningState =
      (.returned ⟨false, some (lit "Déjà en cours.")⟩, runningState) :=
  ⟨by decide, by decide,
    (startServer_rejects_when_running exampleHost runningState (by decide)).1⟩

/-! ## `stopServer` -/

theorem startServer_of_unreadable (H : Host) (s : State) (hr : isRunning s = false)
    (hc : s.configFile = none) :
    startServer H s = (.threw, { s with cleanupKills := s.cleanupKills + 1 }) := by
  unfold startServer
  simp [hr, hc]

/-- C8. With `config.json` unreadable and no server tracked, `startServer`
does not return a result: the exception of `readConfig` leaves it. No process
is spawned and `gmodProc` stays `null`. When the same call is made by the
restart timer (start, the file becomes unreadable, restart, the timer fires)
the exception is uncaught and the panel goes down. -/
theorem startServer_throws_on_unreadable_config :
    (startServer exampleHost (init none)).1 = Outcome.threw ∧
    (startServer exampleHost (init none)).1 ≠ Outcome.returned ⟨false, none⟩ ∧
    (startServer exampleHost (init none)).2.gmodProc = none ∧
    (startServer exampleHost (init none)).2.spawned = 0 ∧
    (exec exampleHost (init (some exampleFile))
      [.start, .fileChanged none, .restart .delivered true, .restartTimer]).hostCrashed = true := by
  decide

/-! ## The config endpoint -/

theorem readConfig_after_postConfig (H : Host) (body : Obj) (current : Config) :
    (readConfig H (writeConfig (nextConfig H body current))).port = JNum.fin 27015 ∧
    (readConfig H (writeConfig (nextConfig H body current))).tickrate = JNum.fin 66 :=
  ⟨rfl, rfl⟩

/-- C10. With port 27016 and tick rate 100 on disk, a `POST /api/config` whose
body only sets the map answers 200 and writes a record without `port` and
`tickrate`: `readConfig` gave 27016 and 100 before the update and gives the
defaults 27015 and 66 after it. -/
theorem postConfig_drops_port_and_tickrate :
    (readConfig exampleHost customFile).port = JNum.fin 27016 ∧
    (readConfig exampleHost customFile).tickrate = JNum.fin 100 ∧
    (postConfig exampleHost (init (some customFile))
      [(lit "map", .str (lit "gm_construct"))] true).1 = 200 ∧
    ((postConfig exampleHost (init (some customFile))
      [(lit "map", .str (lit "gm_construct"))] true).2.configFile.map
        (fun file => ((file.lookup (lit "port")).isSome, (file.lookup (lit "tickrate")).isSome,
          (readConfig exampleHost file).port, (readConfig exampleHost file).tickrate))) =
      some (false, false, JNum.fin 27015, JNum.fin 66) := by
  decide

/-! ## The tracked handle along a run -/

theorem tracked_logLine (s : State) (line : JStr) (h : TrackedIsLatestAlive s) :
    TrackedIsLatestAlive (logLine s line) := h

theorem trim_of_all_whiteSpace (text : JStr) (h : text.all isWhiteSpace = true) :
    trim text = [] := by
  have h1 : text.dropWhile isWhiteSpace = [] :=
    List.dropWhile_eq_nil_iff.mpr (List.all_eq_true.mp h)
  unfold trim
  rw [h1]
  rfl

theorem mem_dropWhile_of_not (p : Nat → Bool) (x : Nat) (l : List Nat) (hx : x ∈ l)
    (hp : p x = false) : x ∈ l.dropWhile p := by
  have h := List.takeWhile_append_dropWhile p l
  rw [← h] at hx
  rcases List.mem_append.mp hx with h1 | h2
  · have := List.mem_takeWhile_imp h1
    rw [hp] at this
    cases this
  · exact h2

theorem trim_ne_nil (text : JStr) (h : text.all isWhiteSpace = false) : trim text ≠ [] := by
  obtain ⟨x, hx, hpx⟩ := List.all_eq_false.mp h
  have hpx' : isWhiteSpace x = false := by simpa using hpx
  have h1 := mem_dropWhile_of_not isWhiteSpace x text hx hpx'
  have h2 := mem_dropWhile_of_not isWhiteSpace x _ (List.mem_reverse.mpr h1) hpx'
  intro h0
  unfold trim at h0
  rw [List.reverse_eq_nil_iff] at h0
  rw [h0] at h2
  cases h2

theorem trim_length_le (text : JStr) : (trim text).length ≤ text.length := by
  unfold trim
  rw [List.length_reverse]
  calc ((text.dropWhile isWhiteSpace).reverse.dropWhile isWhiteSpace).length
      ≤ (text.dropWhile isWhiteSpace).reverse.length := (List.dropWhile_sublist _).length_le
    _ = (text.dropWhile isWhiteSpace).length := List.length_reverse _
    _ ≤ text.length := (List.dropWhile_sublist _).length_le

/-- C5, as the code has it. With a live process, a command text that is
empty, is whitespace only, or is longer than 200 characters once trimmed is
dropped: the handler leaves the whole state as it was, so nothing is written
to the process and nothing is appended to the log buffer. -/
theorem consoleCmd_rejects (s : State) (p : ChildProcess) (text : JStr)
    (hp : s.gmodProc = some p) (hk : p.killed = false)
    (h : text = [] ∨ text.all isWhiteSpace = true ∨ 200 < (trim text).length) :
    consoleCmd s (.str text) = s := by
  unfold consoleCmd
  rcases h with h | h | h
  · subst h
    simp [hp, hk, trim_nil]
  · simp [hp, hk, trim_of_all_whiteSpace text h]
  · have hne : trim text ≠ [] := by
      intro h0
      rw [h0] at h
      cases h
    simp [hp, hk, hne, h]

/-- C5 at the inputs the specification names: the empty text, a space and a
line feed, and 201 letters. -/
theorem consoleCmd_rejects_witness :
    consoleCmd runningState (.str (lit "")) = runningState ∧
    consoleCmd runningState (.str (lit " \n")) = runningState ∧
    consoleCmd runningState (.str (List.replicate 201 0x61)) = runningState :=
  ⟨consoleCmd_rejects runningState ⟨0, false⟩ _ (by decide) rfl (Or.inl rfl),
   consoleCmd_rejects runningState ⟨0, false⟩ _ (by decide) rfl (Or.inr (Or.inl (by decide))),
   consoleCmd_rejects runningState ⟨0, false⟩ _ (by decide) rfl (Or.inr (Or.inr (by decide)))⟩

/-- C5 as stated fails: the letter `a` followed by 200 spaces has 201
characters, yet the handler trims it to `a`, echoes it and writes it to the
process. -/
theorem long_padded_command_is_forwarded :
    (0x61 :: List.replicate 200 0x20).length = 201 ∧
    (consoleCmd runningState (.str (0x61 :: List.replicate 200 0x20))).stdinWrites =
      [(0, lit "a\n")] ∧
    (consoleCmd runningState (.str (0x61 :: List.replicate 200 0x20))).lastLines =
      runningState.lastLines ++ [lit "[console] a"] := by
  decide

/-- C6, as the code has it. With a live process and a command text that is
not empty, not whitespace only and at most 200 characters long, the handler
appends one line to the log buffer, `[console] ` followed by the trimmed
text, broadcasts that line, and issues one write on the stdin of the tracked
process, the trimmed text followed by one line feed. The handle is kept. -/
theorem consoleCmd_forwards (s : State) (p : ChildProcess) (text : JStr)
    (hp : s.gmodProc = some p) (hk : p.killed = false)
    (_hne : text ≠ []) (hws : text.all isWhiteSpace = false) (hlen : text.length ≤ 200) :
    (consoleCmd s (.str text)).lastLines =
      pushLine s.lastLines (lit "[console] " ++ trim text) ∧
    (consoleCmd s (.str text)).stdinWrites = s.stdinWrites ++ [(p.pid, trim text ++ [0x0A])] ∧
    (consoleCmd s (.str text)).emitted =
      s.emitted ++ [Emitted.log (lit "[console] " ++ trim text)] ∧
    (consoleCmd s (.str text)).gmodProc = s.gmodProc := by
  have h1 : trim text ≠ [] := trim_ne_nil text hws
  have h2 : ¬ 200 < (trim text).length := by
    have := trim_length_le text
    omega
  unfold consoleCmd
  simp [hp, hk, h1, h2, logLine, lit]

/-- C6 at a valid 50-character command. -/
theorem consoleCmd_forwards_witness :
    (consoleCmd runningState (.str (List.replicate 50 0x61))).lastLines =
      pushLine runningState.lastLines (lit "[console] " ++ trim (List.replicate 50 0x61)) ∧
    (consoleCmd runningState (.str (List.replicate 50 0x61))).stdinWrites =
      runningState.stdinWrites ++ [(0, trim (List.replicate 50 0x61) ++ [0x0A])] ∧
    (consoleCmd runningState (.str (List.replicate 50 0x61))).emitted =
      runningState.emitted ++
        [Emitted.log (lit "[console] " ++ trim (List.replicate 50 0x61))] ∧
    (consoleCmd runningState (.str (List.replicate 50 0x61))).gmodProc =
      runningState.gmodProc :=
  consoleCmd_forwards runningState ⟨0, false⟩ (List.replicate 50 0x61) (by decide) rfl
    (by decide) (by decide) (by decide)

/-- C6 as stated fails: for the valid text ` a` (a space, then `a`) the echo
line is `[console] a` and the write is `a` and a line feed; neither carries
the text as it was sent. -/
theorem untrimmed_command_is_not_echoed_verbatim :
    lit " a" ≠ [] ∧ (lit " a").all isWhiteSpace = false ∧ (lit " a").length ≤ 200 ∧
    (consoleCmd runningState (.str (lit " a"))).lastLines =
      runningState.lastLines ++ [lit "[console] a"] ∧
    (consoleCmd runningState (.str (lit " a"))).lastLines ≠
      pushLine runningState.lastLines (lit "[console] " ++ lit " a") ∧
    (consoleCmd runningState (.str (lit " a"))).stdinWrites = [(0, lit "a\n")] ∧
    (consoleCmd runningState (.str (lit " a"))).stdinWrites ≠
      runningState.stdinWrites ++ [(0, lit " a" ++ lit "\n")] := by
  decide

/-! ## The normalisation of `readConfig` -/

theorem toNumber_of_falsy (H : Host) (v : JVal) (h : v.truthy = false) :
    v.toNumber H = JNum.nan ∨ v.toNumber H = JNum.fin 0 := by
  cases v with
  | undefined => exact Or.inl rfl
  | null => exact Or.inr rfl
  | bool b =>
    simp only [JVal.truthy] at h
    subst h
    exact Or.inr rfl
  | num n =>
    cases n with
    | nan => exact Or.inl rfl
    | negInf => simp [JVal.truthy, JNum.isNaN] at h
    | posInf => simp [JVal.truthy, JNum.isNaN] at h
    | fin q =>
      simp [JVal.truthy, JNum.isNaN] at h
      subst h
      exact Or.inr rfl
  | str s =>
    simp [JVal.truthy] at h
    subst h
    exact Or.inr rfl
  | arr xs => simp [JVal.truthy] at h
  | obj fs => simp [JVal.truthy] at h

theorem toNumber_orElse (H : Host) (v : JVal) (d : JNum) :
    (v.orElse (.num d)).toNumber H = if v.truthy = true then v.toNumber H else d := by
  unfold JVal.orElse
  by_cases h : v.truthy = true
  · simp [h]
  · simp [h, JVal.toNumber]

theorem normalise_port (n : JNum) :
    (if JNum.gt (if (n.isNaN || n.lt (.fin 1)) = true then JNum.fin 27015 else n) (.fin 65535) = true
      then JNum.fin 27015
      else (if (n.isNaN || n.lt (.fin 1)) = true then JNum.fin 27015 else n)) =
    if n.inRange 1 65535 = true then n else JNum.fin 27015 := by
  cases n with
  | nan => simp [JNum.isNaN, JNum.lt, JNum.gt, JNum.inRange]
  | negInf => simp [JNum.isNaN, JNum.lt, JNum.gt, JNum.inRange]
  | posInf => simp [JNum.isNaN, JNum.lt, JNum.gt, JNum.inRange]
  | fin q =>
    by_cases h1 : q < 1
    · have h2 : ¬ (1 ≤ q) := not_le.mpr h1
      simp [JNum.isNaN, JNum.lt, JNum.gt, JNum.inRange, h1, h2]
    · have h2 : 1 ≤ q := not_lt.mp h1
      by_cases h3 : 65535 < q
      · have h4 : ¬ (q ≤ 65535) := not_le.mpr h3
        simp [JNum.isNaN, JNum.lt, JNum.gt, JNum.inRange, h1, h2, h3, h4]
      · have h4 : q ≤ 65535 := not_lt.mp h3
        simp [JNum.isNaN, JNum.lt, JNum.gt, JNum.inRange, h1, h2, h3, h4]

theorem normalise_tickrate (n : JNum) :
    (if JNum.gt (if (n.isNaN || n.lt (.fin 10)) = true then JNum.fin 66 else n) (.fin 128) = true
      then JNum.fin 128
      else (if (n.isNaN || n.lt (.fin 10)) = true then JNum.fin 66 else n)) =
    if n.inRange 10 128 = true then n
    else if n.gt (.fin 128) = true then JNum.fin 128 else JNum.fin 66 := by
  cases n with
  | nan => 
    simp [JNum.isNaN, JNum.lt, JNum.gt, JNum.inRange]
    norm_num
  | negInf => 
    simp [JNum.isNaN, JNum.lt, JNum.gt, JNum.inRange]
    norm_num
  | posInf => simp [JNum.isNaN, JNum.lt, JNum.gt, JNum.inRange]
  | fin q =>
    by_cases h1 : q < 10
    · have h2 : ¬ (10 ≤ q) := not_le.mpr h1
      have h3 : ¬ (128 < q) := by linarith
      simp [JNum.isNaN, JNum.lt, JNum.gt, JNum.inRange, h1, h2, h3]
      norm_num
    · have h2 : 10 ≤ q := not_lt.mp h1
      by_cases h3 : 128 < q
      · have h4 : ¬ (q ≤ 128) := not_le.mpr h3
        simp [JNum.isNaN, JNum.lt, JNum.gt, JNum.inRange, h1, h2, h3, h4]
      · have h4 : q ≤ 128 := not_lt.mp h3
        simp [JNum.isNaN, JNum.lt, JNum.gt, JNum.inRange, h1, h2, h3, h4]

theorem normalise_maxPlayers (n : JNum) :
    JNum.inRange 1 128
      (if JNum.gt (if (n.isNaN || n.lt (.fin 1)) = true then JNum.fin 1 else n) (.fin 128) = true
        then JNum.fin 128
        else (if (n.isNaN || n.lt (.fin 1)) = true then JNum.fin 1 else n)) = true := by
  cases n with
  | nan => simp [JNum.isNaN, JNum.lt, JNum.gt, JNum.inRange]
  | negInf => simp [JNum.isNaN, JNum.lt, JNum.gt, JNum.inRange]
  | posInf => simp [JNum.isNaN, JNum.lt, JNum.gt, JNum.inRange]
  | fin q =>
    by_cases h1 : q < 1
    · simp [JNum.isNaN, JNum.lt, JNum.gt, JNum.inRange, h1]
    · have h2 : 1 ≤ q := not_lt.mp h1
      by_cases h3 : 128 < q
      · simp [JNum.isNaN, JNum.lt, JNum.gt, JNum.inRange, h1, h3]
      · have h4 : q ≤ 128 := not_lt.mp h3
        simp [JNum.isNaN, JNum.lt, JNum.gt, JNum.inRange, h1, h2, h3, h4]

theorem readConfig_port (H : Host) (cfg : Obj) :
    (readConfig H cfg).port =
      if JNum.inRange 1 65535 ((getField cfg "port").toNumber H) = true
        then (getField cfg "port").toNumber H else JNum.fin 27015 := by
  have h : (readConfig H cfg).port =
      (if JNum.gt (if (JNum.isNaN (((getField cfg "port").orElse (.num (.fin 27015))).toNumber H) ||
            JNum.lt (((getField cfg "port").orElse (.num (.fin 27015))).toNumber H) (.fin 1)) = true
          then JNum.fin 27015
          else ((getField cfg "port").orElse (.num (.fin 27015))).toNumber H) (.fin 65535) = true
        then JNum.fin 27015
        else (if (JNum.isNaN (((getField cfg "port").orElse (.num (.fin 27015))).toNumber H) ||
            JNum.lt (((getField cfg "port").orElse (.num (.fin 27015))).toNumber H) (.fin 1)) = true
          then JNum.fin 27015
          else ((getField cfg "port").orElse (.num (.fin 27015))).toNumber H)) := rfl
  rw [h, normalise_port, toNumber_orElse]
  by_cases ht : (getField cfg "port").truthy = true
  · simp only [ht, if_true]
  · have hf : (getField cfg "port").truthy = false := by simpa using ht
    rcases toNumber_of_falsy H _ hf with h0 | h0
    · simp [ht, h0, JNum.inRange]
    · simp [ht, h0, JNum.inRange]
      norm_num

theorem readConfig_tickrate (H : Host) (cfg : Obj) :
    (readConfig H cfg).tickrate =
      if JNum.inRange 10 128 ((getField cfg "tickrate").toNumber H) = true
        then (getField cfg "tickrate").toNumber H
      else if JNum.gt ((getField cfg "tickrate").toNumber H) (.fin 128) = true
        then JNum.fin 128 else JNum.fin 66 := by
  have h : (readConfig H cfg).tickrate =
      (if JNum.gt (if (JNum.isNaN (((getField cfg "tickrate").orElse (.num (.fin 66))).toNumber H) ||
            JNum.lt (((getField cfg "tickrate").orElse (.num (.fin 66))).toNumber H) (.fin 10)) = true
          then JNum.fin 66
          else ((getField cfg "tickrate").orElse (.num (.fin 66))).toNumber H) (.fin 128) = true
        then JNum.fin 128
        else (if (JNum.isNaN (((getField cfg "tickrate").orElse (.num (.fin 66))).toNumber H) ||
            JNum.lt (((getField cfg "tickrate").orElse (.num (.fin 66))).toNumber H) (.fin 10)) = true
          then JNum.fin 66
          else ((getField cfg "tickrate").orElse (.num (.fin 66))).toNumber H)) := rfl
  rw [h, normalise_tickrate, toNumber_orElse]
  by_cases ht : (getField cfg "tickrate").truthy = true
  · simp only [ht, if_true]
  · have hf : (getField cfg "tickrate").truthy = false := by simpa using ht
    rcases toNumber_of_falsy H _ hf with h0 | h0 <;>
      simp [ht, h0, JNum.inRange, JNum.gt, JNum.lt] <;> norm_num

theorem inRange_ite (lo hi : ℚ) (n d : JNum) (hd : JNum.inRange lo hi d = true) :
    JNum.inRange lo hi (if JNum.inRange lo hi n = true then n else d) = true := by
  by_cases h : JNum.inRange lo hi n = true
  · rw [if_pos h]; exact h
  · rw [if_neg h]; exact hd

/-- C7, as the code has it. Reading each field through the conversion
`Number(...)`: the config `readConfig` returns has `maxPlayers` in [1,128],
`port` in [1,65535] and `tickrate` in [10,128]; a port in [1,65535] is kept
and any other becomes 27015; a tick rate in [10,128] is kept, a tick rate
above 128 becomes 128, and any other becomes 66. -/
theorem readConfig_normalises (H : Host) (cfg : Obj) :
    JNum.inRange 1 128 (readConfig H cfg).maxPlayers = true ∧
    JNum.inRange 1 65535 (readConfig H cfg).port = true ∧
    JNum.inRange 10 128 (readConfig H cfg).tickrate = true ∧
    (readConfig H cfg).port =
      (if JNum.inRange 1 65535 ((getField cfg "port").toNumber H) = true
        then (getField cfg "port").toNumber H else JNum.fin 27015) ∧
    (readConfig H cfg).tickrate =
      (if JNum.inRange 10 128 ((getField cfg "tickrate").toNumber H) = true
        then (getField cfg "tickrate").toNumber H
      else if JNum.gt ((getField cfg "tickrate").toNumber H) (.fin 128) = true
        then JNum.fin 128 else JNum.fin 66) := by
  refine ⟨normalise_maxPlayers _, ?_, ?_, readConfig_port H cfg, readConfig_tickrate H cfg⟩
  · rw [readConfig_port]
    exact inRange_ite 1 65535 _ _ (by decide)
  · rw [readConfig_tickrate]
    by_cases h : JNum.inRange 10 128 ((getField cfg "tickrate").toNumber H) = true
    · rw [if_pos h]; exact h
    · rw [if_neg h]
      split_ifs <;> decide

/-- C7 as stated fails: a stored tick rate of 200 is outside [10,128] and
`readConfig` returns 128 for it, not the default 66. -/
theorem tickrate_above_128_becomes_128 :
    JNum.inRange 10 128 (JNum.fin 200) = false ∧
    (readConfig exampleHost [(lit "tickrate", .num (.fin 200))]).tickrate = JNum.fin 128 ∧
    (readConfig exampleHost [(lit "tickrate", .num (.fin 200))]).tickrate ≠ JNum.fin 66 := by
  decide

end GModPanel
